import Mathlib

/-!
# Verification of the HonMaku-Status aggregation pipeline

Shallow embedding of the status-check pipeline implemented in
`scripts/check-status.js` (the prober `checkWebsiteStatus`, the date
utility `getDateString`, and the history / incident updates inside
`runStatusCheck`), together with the classification rules shared with the
renderer (`loadStatus`).  Timestamps are Unix seconds (`Nat`) for the
stores and Unix milliseconds (`Int`) for probe timing, mirroring the
JavaScript source.  The date-bucketing function is passed as a parameter
`dateOf : Nat → String`, standing for `t => getDateString(t, tz)` at the
configured timezone; the concrete instance `getDateString` below realises
the default timezone UTC.
-/

/-- One entry of `status-history.json`: the daily snapshot record built by
`runStatusCheck` (fields `date`, `timestamp`, `status`, where `status` is
the string "good" or "error"). -/
structure HistoryEntry where
  date : String
  timestamp : Nat
  status : String
deriving DecidableEq, Repr

/-- The object resolved by `checkWebsiteStatus`, plus the `name` field that
`runStatusCheck` attaches afterwards (`result.name = service.name`).
`status` is `none` when the JS field is `null`. -/
structure ProbeResult where
  url : String
  status : Option Nat
  statusText : String
  responseTime : Int
  error : Option String
  timestamp : Int
  name : String
deriving DecidableEq, Repr

/-- One entry of `status-incidents.json`, as built inside `runStatusCheck`. -/
structure Incident where
  date : String
  timestamp : Nat
  service : String
  name : String
  status : Option Nat
  error : String
  responseTime : Int
deriving DecidableEq, Repr

/-- A configured service (`config.json` entry): name, url, optional timeout. -/
structure Service where
  name : String
  url : String
  timeout : Option Nat
deriving DecidableEq, Repr

/-- The slice of the configuration that `runStatusCheck` reads:
`config.services` and `config.timezone` (absent in the built-in default,
where the code falls back to the string "UTC"). -/
structure Config where
  services : List Service
  timezone : Option String
deriving DecidableEq, Repr

/-- Two-digit zero padding, as produced by the `2-digit` option of
`Intl.DateTimeFormat`. -/
def pad2 (n : Nat) : String :=
  if n < 10 then "0" ++ toString n else toString n

/-- Civil date from a count of days since 1970-01-01 (proleptic Gregorian,
the algorithm used by ECMAScript date arithmetic), returning
(year, month, day).  Valid for days ≥ 0, i.e. dates from 1970 on, which
covers every Unix timestamp the scripts handle. -/
def civilFromDays (z : Nat) : Nat × Nat × Nat :=
  let z := z + 719468
  let era := z / 146097
  let doe := z % 146097
  let yoe := (doe - doe / 1460 + doe / 36524 - doe / 146096) / 365
  let y := yoe + era * 400
  let doy := doe - (365 * yoe + yoe / 4 - yoe / 100)
  let mp := (5 * doy + 2) / 153
  let d := doy - (153 * mp + 2) / 5 + 1
  let m := if mp < 10 then mp + 3 else mp - 9
  (if m ≤ 2 then y + 1 else y, m, d)

/-- `getDateString` from check-status.js at the default timezone UTC: format
a Unix-seconds timestamp as YYYY-MM-DD (the `en-CA` locale of
`Intl.DateTimeFormat` yields exactly this shape). -/
def getDateString (timestamp : Nat) : String :=
  let ymd := civilFromDays (timestamp / 86400)
  toString ymd.1 ++ "-" ++ pad2 ymd.2.1 ++ "-" ++ pad2 ymd.2.2

/-- Line 124 of check-status.js: a result counts as an error when
`result.status === null || result.status >= 400`. -/
def resultDown (r : ProbeResult) : Bool :=
  match r.status with
  | none => true
  | some s => decide (400 ≤ s)

/-- The `hasError` flag accumulated over the probe loop of `runStatusCheck`:
true iff some result satisfies the line-124 error test. -/
def hasErrorOf (results : List ProbeResult) : Bool :=
  results.any resultDown

/-- The else-branch of the history update (lines 168-175): find the first
entry whose date is the current date and, when its status is "good" and the
run saw an error, set its status to "error" and refresh its timestamp; every
other entry is left in place.  `pred` is the today test of the `findIndex`
call on line 150. -/
def updateTodayEntry (hasErr : Bool) (now : Nat) (pred : HistoryEntry → Bool) :
    List HistoryEntry → List HistoryEntry
  | [] => []
  | e :: rest =>
    if pred e then
      (if e.status == "good" && hasErr then
        { e with status := "error", timestamp := now }
      else e) :: rest
    else
      e :: updateTodayEntry hasErr now pred rest

/-- The history update of `runStatusCheck` (lines 149-175): when no entry
dated today exists (`findIndex` returns -1, equivalently no element passes
the today test), unshift a fresh entry for the current date and truncate to
60 days; otherwise possibly escalate the existing today entry from "good"
to "error".  `dateOf` stands for `t => getDateString(t, timezone)`. -/
def updateHistory (dateOf : Nat → String) (history : List HistoryEntry)
    (hasErr : Bool) (now : Nat) : List HistoryEntry :=
  if history.any (fun item => dateOf item.timestamp == dateOf now) then
    updateTodayEntry hasErr now (fun item => dateOf item.timestamp == dateOf now) history
  else
    ({ date := dateOf now, timestamp := now,
       status := if hasErr then "error" else "good" } :: history).take 60

/-- The `findIndex` predicate of the incident dedup (lines 192-195): an
existing incident matches when its timestamp falls on the current date and
its `service` equals the failing result url. -/
def incidentMatches (dateOf : Nat → String) (currentDate url : String)
    (inc : Incident) : Bool :=
  dateOf inc.timestamp == currentDate && inc.service == url

/-- The incident object built on lines 199-207.  The `error` field is the
JS expression `result.error || result.statusText`: the status text is used
when the error is null or the empty string (both falsy). -/
def mkIncident (currentDate : String) (now : Nat) (r : ProbeResult) : Incident :=
  { date := currentDate
    timestamp := now
    service := r.url
    name := r.name
    status := r.status
    error := match r.error with
             | some e => if e == "" then r.statusText else e
             | none => r.statusText
    responseTime := r.responseTime }

/-- The incident update of `runStatusCheck` (lines 188-216): when the run
saw an error, walk the results in order and, for each failing result with
no matching incident on the current date, unshift a fresh incident; finally
truncate the ledger to 100 entries (the `slice` on line 216 runs
unconditionally). -/
def recordIncidents (dateOf : Nat → String) (incidents : List Incident)
    (results : List ProbeResult) (now : Nat) : List Incident :=
  (if hasErrorOf results then
    results.foldl (fun acc r =>
      if resultDown r then
        if acc.any (incidentMatches dateOf (dateOf now) r.url) then acc
        else mkIncident (dateOf now) now r :: acc
      else acc) incidents
  else incidents).take 100

/-- The built-in default configuration of `runStatusCheck` (lines 97-102),
used when reading or parsing config.json throws; it carries no timezone
field, so later reads of `config.timezone` fall back to "UTC". -/
def defaultConfig : Config :=
  { services := [ { name := "AniList", url := "https://anilist.co", timeout := some 10000 }
                , { name := "Giscus", url := "https://giscus.app", timeout := some 10000 } ]
    timezone := none }

/-- The config-loading step of `runStatusCheck` (lines 91-103).
`readResult` is `none` when `fs.readFile` throws (missing file) and
`some s` when the file holds text `s`; `parse` models `JSON.parse`, with
`none` for a parse exception.  The single catch block maps both failure
modes to the built-in default configuration. -/
def loadConfig (readResult : Option String) (parse : String → Option Config) : Config :=
  match readResult with
  | none => defaultConfig
  | some s =>
    match parse s with
    | some c => c
    | none => defaultConfig

/-- The state-file loading steps of `runStatusCheck` (history, lines
140-147; incidents, lines 177-185): start from the empty list and replace
it with the parsed file content; a read or parse exception leaves the
store empty. -/
def loadStore {α : Type} (readResult : Option String)
    (parse : String → Option (List α)) : List α :=
  match readResult with
  | none => []
  | some s =>
    match parse s with
    | some v => v
    | none => []

/-- The characters before the first colon, or `none` when the string holds
no colon at all (helper for `isValidURL`). -/
def schemeChars : List Char → Option (List Char)
  | [] => none
  | c :: rest =>
    if c = ':' then some []
    else
      match schemeChars rest with
      | some s => some (c :: s)
      | none => none

/-- Models Node new URL (a platform builtin) far enough for the prober:
the constructor throws a TypeError for a string with no scheme.
Simplified: the input is valid when the text before the first colon is a
nonempty alphabetic scheme. -/
def isValidURL (url : String) : Bool :=
  match schemeChars url.toList with
  | some s => !s.isEmpty && s.all Char.isAlpha
  | none => false

/-- The three ways the underlying transport can settle for one request:
a response (the `response` callback), a request error event, or the
timeout timer firing. -/
inductive NetOutcome where
  | response (statusCode : Nat) (statusMessage : String)
  | connError (message : String)
  | timedOut
deriving DecidableEq, Repr

/-- `checkWebsiteStatus` (lines 6-73).  `startTime` and `endTime` are the
`Date.now()` samples (milliseconds) taken at dispatch and at settlement.
Each transport outcome resolves the promise with a result object; the
`Except.error` case models the promise rejection that a throw inside the
executor causes — `new URL(url)` on line 9 throws for an invalid url
before any handler is installed. -/
def checkWebsiteStatus (url : String) (outcome : NetOutcome)
    (startTime endTime : Int) : Except String ProbeResult :=
  if isValidURL url then
    match outcome with
    | .response code msg =>
      .ok { url := url, status := some code, statusText := msg
            responseTime := endTime - startTime, error := none
            timestamp := Int.fdiv endTime 1000, name := "" }
    | .connError m =>
      .ok { url := url, status := none, statusText := "Error"
            responseTime := endTime - startTime, error := some m
            timestamp := Int.fdiv endTime 1000, name := "" }
    | .timedOut =>
      .ok { url := url, status := none, statusText := "Timeout"
            responseTime := endTime - startTime, error := some "Request timed out"
            timestamp := Int.fdiv endTime 1000, name := "" }
  else
    .error "Invalid URL"

/-- The renderer classification from loadStatus (part_001, lines 300-311,
also line 359): a result is up when `r.status && r.status < 400` — JS
truthiness makes a null or zero status falsy. -/
def isUpJS (status : Option Nat) : Bool :=
  match status with
  | some s => !(s == 0) && decide (s < 400)
  | none => false

/-- The down test shared by the renderer and line 124 of check-status.js:
`r.status === null || r.status >= 400`. -/
def isDownJS (status : Option Nat) : Bool :=
  match status with
  | some s => decide (400 ≤ s)
  | none => true

/-- Refinement target, from the words of the spec: Up iff a response was
received with status in [200, 400). -/
def upSpec (status : Option Nat) : Bool :=
  match status with
  | some s => decide (200 ≤ s) && decide (s < 400)
  | none => false

/-- Refinement target, from the words of the spec: Down iff no response
(status absent) or status ≥ 400. -/
def downSpec (status : Option Nat) : Bool :=
  match status with
  | some s => decide (400 ≤ s)
  | none => true

/-- The pairwise-dedup invariant of the incident ledger: no two incidents
share the (service url, calendar date) key. -/
def atMostOnePerPair (dateOf : Nat → String) (incs : List Incident) : Prop :=
  incs.Pairwise (fun a b =>
    ¬(dateOf a.timestamp = dateOf b.timestamp ∧ a.service = b.service))

/-- Sample ledger for concrete checks: one incident for service A on
1970-01-01. -/
def sampleLedger : List Incident :=
  [ { date := "1970-01-01", timestamp := 10, service := "https://a.example"
      name := "A", status := some 500, error := "HTTP 500", responseTime := 5 } ]

/-- Sample run results for concrete checks: service A down again later on
1970-01-01. -/
def sampleResults : List ProbeResult :=
  [ { url := "https://a.example", status := some 503
      statusText := "Service Unavailable", responseTime := 3
      error := none, timestamp := 50, name := "A" } ]

/-- Sample probe outcome for concrete checks: a 200 response after 120 ms. -/
def sampleProbe : ProbeResult :=
  { url := "https://anilist.co", status := some 200, statusText := "OK"
    responseTime := 120, error := none, timestamp := 0, name := "" }

/-- Sample over-capacity daily archive: 61 entries on 61 distinct days,
the first of them dated like timestamp 0. -/
def sampleLongHistory : List HistoryEntry :=
  (List.range 61).map fun k =>
    { date := getDateString (86400 * k), timestamp := 86400 * k, status := "error" }

theorem getDateString_epoch : getDateString 0 = "1970-01-01" := by decide

theorem getDateString_sample : getDateString 1730073600 = "2024-10-28" := by decide

theorem length_updateTodayEntry (hasErr : Bool) (now : Nat)
    (pred : HistoryEntry → Bool) (l : List HistoryEntry) :
    (updateTodayEntry hasErr now pred l).length = l.length := by
  induction l with
  | nil => rfl
  | cons e rest ih =>
    simp only [updateTodayEntry]
    split
    · simp
    · simp [ih]

theorem mem_updateTodayEntry {hasErr : Bool} {now : Nat}
    {pred : HistoryEntry → Bool} {l : List HistoryEntry} {e : HistoryEntry}
    (h : e ∈ updateTodayEntry hasErr now pred l) : e ∈ l ∨ e.timestamp = now := by
  induction l with
  | nil => exact absurd h (by simp [updateTodayEntry])
  | cons a rest ih =>
    simp only [updateTodayEntry] at h
    split at h
    · rcases List.mem_cons.mp h with h1 | h1
      · split at h1
        · exact Or.inr (by rw [h1])
        · exact Or.inl (h1 ▸ List.mem_cons_self a rest)
      · exact Or.inl (List.mem_cons_of_mem a h1)
    · rcases List.mem_cons.mp h with h1 | h1
      · exact Or.inl (h1 ▸ List.mem_cons_self a rest)
      · rcases ih h1 with h2 | h2
        · exact Or.inl (List.mem_cons_of_mem a h2)
        · exact Or.inr h2

theorem any_today_updateTodayEntry (dateOf : Nat → String) (hasErr : Bool)
    (now : Nat) (l : List HistoryEntry)
    (h : l.any (fun e => dateOf e.timestamp == dateOf now) = true) :
    (updateTodayEntry hasErr now (fun e => dateOf e.timestamp == dateOf now) l).any
      (fun e => dateOf e.timestamp == dateOf now) = true := by
  induction l with
  | nil => simp at h
  | cons a rest ih =>
    simp only [updateTodayEntry]
    split
    · rename_i hpred
      split
      · simp
      · simp [hpred]
    · rename_i hpred
      simp only [List.any_cons, Bool.or_eq_true] at h ⊢
      rcases h with h1 | h1
      · exact absurd h1 hpred
      · exact Or.inr (ih h1)

/-- C1 (amended): the history update of runStatusCheck always leaves the
daily archive with an entry for the current calendar date — the archive
does contain the in-progress day; a fresh entry dated today is added
exactly when none is present. -/
theorem archive_contains_current_date (dateOf : Nat → String)
    (history : List HistoryEntry) (hasErr : Bool) (now : Nat) :
    ((updateHistory dateOf history hasErr now).any
      (fun e => dateOf e.timestamp == dateOf now)) = true := by
  unfold updateHistory
  split
  · rename_i h
    exact any_today_updateTodayEntry dateOf hasErr now history h
  · rw [show (60 : Nat) = 59 + 1 from rfl, List.take_succ_cons]
    simp

/-- C1 (counterexample): a run over an empty archive records a snapshot
dated the current day itself, contradicting the claim that no snapshot is
ever produced for today. -/
theorem history_update_records_today :
    updateHistory getDateString [] false 0 = [⟨"1970-01-01", 0, "good"⟩] ∧
    getDateString 0 = "1970-01-01" := by decide

/-- C2 (amended): entries for calendar dates other than the current date
are never created or modified by a run — every entry of the updated
archive dated unlike today occurs verbatim in the input archive.  The
current date is the exception: its entry may be escalated from good to
error in place. -/
theorem past_dates_never_altered (dateOf : Nat → String)
    (history : List HistoryEntry) (hasErr : Bool) (now : Nat) (e : HistoryEntry)
    (hmem : e ∈ updateHistory dateOf history hasErr now)
    (hdate : dateOf e.timestamp ≠ dateOf now) : e ∈ history := by
  unfold updateHistory at hmem
  split at hmem
  · rcases mem_updateTodayEntry hmem with h | h
    · exact h
    · exact absurd (by rw [h]) hdate
  · have h2 := (List.take_sublist _ _).subset hmem
    rcases List.mem_cons.mp h2 with h3 | h3
    · exact absurd (by rw [h3]) hdate
    · exact h3

theorem past_dates_never_altered_witness :
    (⟨"1970-01-01", 0, "good"⟩ : HistoryEntry) ∈
        updateHistory getDateString [⟨"1970-01-01", 0, "good"⟩] false 172800 ∧
    getDateString (HistoryEntry.timestamp ⟨"1970-01-01", 0, "good"⟩) ≠ getDateString 172800 ∧
    (⟨"1970-01-01", 0, "good"⟩ : HistoryEntry) ∈ [(⟨"1970-01-01", 0, "good"⟩ : HistoryEntry)] :=
  ⟨by decide, by decide,
    past_dates_never_altered getDateString [⟨"1970-01-01", 0, "good"⟩] false 172800
      ⟨"1970-01-01", 0, "good"⟩ (by decide) (by decide)⟩

/-- C2 (counterexample): an archive entry for a date already present is
altered by a later run covering the same date — the today entry with
status good is rewritten to error with a fresh timestamp, refuting
first-writer-wins. -/
theorem todays_entry_mutated_by_later_run :
    updateHistory getDateString [⟨"1970-01-01", 0, "good"⟩] true 50
      = [⟨"1970-01-01", 50, "error"⟩] ∧
    (⟨"1970-01-01", 50, "error"⟩ : HistoryEntry) ≠ ⟨"1970-01-01", 0, "good"⟩ := by decide

/-- C3 (amended): over two runs on the same calendar date starting from an
empty archive, the date gets exactly one entry whose status is error iff
either run observed an error: the first run of the day creates the entry
and later runs only escalate good to error, so an early error is never
overridden by a later clean check — the day is not represented by the
check with maximal timestamp. -/
theorem same_day_status_error_absorbing (dateOf : Nat → String)
    (e1 e2 : Bool) (t1 t2 : Nat) (h : dateOf t1 = dateOf t2) :
    updateHistory dateOf (updateHistory dateOf [] e1 t1) e2 t2
      = [{ date := dateOf t1, timestamp := cond (!e1 && e2) t2 t1,
           status := cond (e1 || e2) "error" "good" }] := by
  cases e1 <;> cases e2 <;>
    simp [updateHistory, updateTodayEntry, h]

theorem same_day_status_error_absorbing_witness :
    getDateString 0 = getDateString 3600 ∧
    updateHistory getDateString (updateHistory getDateString [] true 0) false 3600
      = [{ date := getDateString 0, timestamp := cond (!true && false) 3600 0,
           status := cond (true || false) "error" "good" }] :=
  ⟨by decide, same_day_status_error_absorbing getDateString true false 0 3600 (by decide)⟩

/-- C3 (counterexample): two checks fall on 1970-01-01, the earlier one
failing and the later one clean; the recorded snapshot for that date keeps
status error with the earlier timestamp, so the check with the later
observation instant does not determine the snapshot. -/
theorem later_good_run_does_not_override_error :
    updateHistory getDateString (updateHistory getDateString [] true 0) false 3600
      = [⟨"1970-01-01", 0, "error"⟩] ∧
    List.map HistoryEntry.status
        (updateHistory getDateString (updateHistory getDateString [] true 0) false 3600)
      ≠ ["good"] := by decide

/-- C9 (amended): the incident ledger written by a run is bounded by 100
for every input, because its truncation is unconditional; the daily
archive is only truncated when a new day entry is added, so its bound of
60 is an invariant preserved from bounded inputs rather than enforced on
arbitrary ones. -/
theorem store_bounds_preserved (dateOf : Nat → String)
    (history : List HistoryEntry) (hasErr : Bool) (now : Nat)
    (incs : List Incident) (results : List ProbeResult) (now2 : Nat) :
    (history.length ≤ 60 → (updateHistory dateOf history hasErr now).length ≤ 60) ∧
    (recordIncidents dateOf incs results now2).length ≤ 100 := by
  constructor
  · intro h
    unfold updateHistory
    split
    · rw [length_updateTodayEntry]
      exact h
    · exact List.length_take_le 60 _
  · exact List.length_take_le 100 _

theorem store_bounds_preserved_witness :
    ([(⟨"1970-01-01", 0, "good"⟩ : HistoryEntry)].length ≤ 60) ∧
    ((updateHistory getDateString [⟨"1970-01-01", 0, "good"⟩] false 86400).length ≤ 60 ∧
      (recordIncidents getDateString sampleLedger sampleResults 50).length ≤ 100) :=
  ⟨by decide,
    (store_bounds_preserved getDateString [⟨"1970-01-01", 0, "good"⟩] false 86400
        sampleLedger sampleResults 50).1 (by decide),
    (store_bounds_preserved getDateString [⟨"1970-01-01", 0, "good"⟩] false 86400
        sampleLedger sampleResults 50).2⟩

/-- C9 (counterexample): a 61-entry daily archive that already holds an
entry for the current date passes through a run untruncated — the written
archive keeps length 61 > 60, refuting the unconditional bound. -/
theorem overlong_archive_not_truncated :
    (updateHistory getDateString sampleLongHistory true 0).length = 61 ∧ 60 < 61 := by decide

theorem atMostOnePerPair_take (dateOf : Nat → String) (n : Nat)
    (l : List Incident) (h : atMostOnePerPair dateOf l) :
    atMostOnePerPair dateOf (l.take n) :=
  List.Pairwise.sublist (List.take_sublist n l) h

theorem pairwise_incident_fold (dateOf : Nat → String) (now : Nat)
    (results : List ProbeResult) (acc : List Incident)
    (h : atMostOnePerPair dateOf acc) :
    atMostOnePerPair dateOf (results.foldl (fun acc r =>
      if resultDown r then
        if acc.any (incidentMatches dateOf (dateOf now) r.url) then acc
        else mkIncident (dateOf now) now r :: acc
      else acc) acc) := by
  induction results generalizing acc with
  | nil => exact h
  | cons r rs ih =>
    simp only [List.foldl_cons]
    apply ih
    by_cases hd : resultDown r = true
    · rw [if_pos hd]
      by_cases ha : (acc.any (incidentMatches dateOf (dateOf now) r.url)) = true
      · rw [if_pos ha]
        exact h
      · rw [if_neg ha]
        refine List.pairwise_cons.mpr ⟨?_, h⟩
        intro b hb
        simp only [List.any_eq_true, not_exists, not_and] at ha
        have hb2 := ha b hb
        simp only [incidentMatches, Bool.and_eq_true, beq_iff_eq] at hb2
        simp only [mkIncident, not_and]
        intro hts hsrv
        exact hb2 ⟨hts.symm, hsrv.symm⟩
    · rw [if_neg hd]
      exact h

theorem incident_fold_noop (dateOf : Nat → String) (now : Nat)
    (incs : List Incident) (results : List ProbeResult)
    (h : ∀ r ∈ results, resultDown r = true →
        incs.any (incidentMatches dateOf (dateOf now) r.url) = true) :
    results.foldl (fun acc r =>
      if resultDown r then
        if acc.any (incidentMatches dateOf (dateOf now) r.url) then acc
        else mkIncident (dateOf now) now r :: acc
      else acc) incs = incs := by
  induction results with
  | nil => rfl
  | cons r rs ih =>
    simp only [List.foldl_cons]
    have hstep : (if resultDown r then
        if incs.any (incidentMatches dateOf (dateOf now) r.url) then incs
        else mkIncident (dateOf now) now r :: incs
      else incs) = incs := by
      by_cases hd : resultDown r = true
      · rw [if_pos hd, if_pos (h r (List.mem_cons_self r rs) hd)]
      · rw [if_neg hd]
    rw [hstep]
    exact ih (fun x hx c => h x (List.mem_cons_of_mem r hx) c)

/-- C4: the incident update preserves the dedup invariant — when no two
ledger incidents share the (service url, calendar date) key on entry, none
do on exit, because an incident is appended only when the ledger holds no
match for that url on the current date; and when the ledger already holds
a match for every failing result, the run appends nothing at all (the
output is just the truncated input ledger). -/
theorem incident_dedup_per_target_date (dateOf : Nat → String)
    (incs : List Incident) (results : List ProbeResult) (now : Nat)
    (h : atMostOnePerPair dateOf incs) :
    atMostOnePerPair dateOf (recordIncidents dateOf incs results now) ∧
    ((∀ r ∈ results, resultDown r = true →
        incs.any (incidentMatches dateOf (dateOf now) r.url) = true) →
      recordIncidents dateOf incs results now = incs.take 100) := by
  constructor
  · unfold recordIncidents
    by_cases he : hasErrorOf results = true
    · rw [if_pos he]
      exact atMostOnePerPair_take _ _ _ (pairwise_incident_fold dateOf now results incs h)
    · rw [if_neg he]
      exact atMostOnePerPair_take _ _ _ h
  · intro hall
    unfold recordIncidents
    by_cases he : hasErrorOf results = true
    · rw [if_pos he, incident_fold_noop dateOf now incs results hall]
    · rw [if_neg he]

theorem incident_dedup_per_target_date_witness :
    atMostOnePerPair getDateString sampleLedger ∧
    (atMostOnePerPair getDateString
        (recordIncidents getDateString sampleLedger sampleResults 50) ∧
      ((∀ r ∈ sampleResults, resultDown r = true →
          sampleLedger.any (incidentMatches getDateString (getDateString 50) r.url) = true) →
        recordIncidents getDateString sampleLedger sampleResults 50 = sampleLedger.take 100)) :=
  ⟨by simp [atMostOnePerPair, sampleLedger],
    incident_dedup_per_target_date getDateString sampleLedger sampleResults 50
      (by simp [atMostOnePerPair, sampleLedger])⟩

/-- C5 (amended): for every target whose url string the URL constructor
accepts, the prober settles by resolving a ProbeResult for every transport
outcome — response, connection error, or timeout — never by rejection. -/
theorem probe_resolves_on_valid_url (url : String) (outcome : NetOutcome)
    (startTime endTime : Int) (h : isValidURL url = true) :
    ∃ r, checkWebsiteStatus url outcome startTime endTime = Except.ok r := by
  unfold checkWebsiteStatus
  rw [if_pos h]
  cases outcome <;> exact ⟨_, rfl⟩

theorem probe_resolves_on_valid_url_witness :
    isValidURL "https://anilist.co" = true ∧
    ∃ r, checkWebsiteStatus "https://anilist.co" NetOutcome.timedOut 0 10 = Except.ok r :=
  ⟨by decide, probe_resolves_on_valid_url "https://anilist.co" NetOutcome.timedOut 0 10 (by decide)⟩

/-- C5 (counterexample): with a url string the URL constructor rejects,
the throw on line 9 happens inside the promise executor before any
handler runs, so checkWebsiteStatus produces a rejection rather than a
ProbeResult — the never-raises contract does not hold for every url
string. -/
theorem invalid_url_rejects :
    checkWebsiteStatus "not a url" (NetOutcome.response 200 "OK") 0 10
      = Except.error "Invalid URL" := rfl

/-- C10: every ProbeResult the prober resolves has its error field null
exactly when its status field holds a code; the response time is the
difference of the two clock samples, hence nonnegative whenever the
settlement sample is not earlier than the dispatch sample; and the timeout
path carries the fixed timeout message. -/
theorem probe_result_error_status_iff (url : String) (outcome : NetOutcome)
    (startTime endTime : Int) (r : ProbeResult)
    (hclock : startTime ≤ endTime)
    (hok : checkWebsiteStatus url outcome startTime endTime = Except.ok r) :
    (r.error = none ↔ r.status ≠ none) ∧ 0 ≤ r.responseTime ∧
    (outcome = NetOutcome.timedOut → r.error = some "Request timed out") := by
  unfold checkWebsiteStatus at hok
  by_cases hv : isValidURL url = true
  · rw [if_pos hv] at hok
    cases outcome with
    | response code msg =>
      have := Except.ok.inj hok
      subst this
      refine ⟨by simp, by simpa using hclock, by simp⟩
    | connError m =>
      have := Except.ok.inj hok
      subst this
      refine ⟨by simp, by simpa using hclock, by simp⟩
    | timedOut =>
      have := Except.ok.inj hok
      subst this
      exact ⟨by simp, by simpa using hclock, fun _ => rfl⟩
  · rw [if_neg hv] at hok
    simp at hok

theorem probe_result_error_status_iff_witness :
    (0 : Int) ≤ 120 ∧
    checkWebsiteStatus "https://anilist.co" (NetOutcome.response 200 "OK") 0 120
      = Except.ok sampleProbe ∧
    ((sampleProbe.error = none ↔ sampleProbe.status ≠ none) ∧
      0 ≤ sampleProbe.responseTime ∧
      (NetOutcome.response 200 "OK" = NetOutcome.timedOut →
        sampleProbe.error = some "Request timed out")) :=
  ⟨by decide, rfl,
    probe_result_error_status_iff "https://anilist.co" (NetOutcome.response 200 "OK")
      0 120 sampleProbe (by decide) rfl⟩

/-- C6 (amended): the down classification of the code agrees with the
spec rule for every status value (absent or at least 400); the up
classification agrees with the [200, 400) rule whenever the status is
absent or at least 200, the only divergence being informational 1xx codes,
which the code counts as up. -/
theorem classification_agrees_with_spec (st : Option Nat)
    (hst : st = none ∨ ∃ s, st = some s ∧ 200 ≤ s) :
    isDownJS st = downSpec st ∧ isUpJS st = upSpec st := by
  refine ⟨by cases st <;> rfl, ?_⟩
  rcases hst with rfl | ⟨s, rfl, hs⟩
  · rfl
  · simp only [isUpJS, upSpec]
    have h0 : (s == 0) = false := by
      simp only [beq_eq_false_iff_ne, ne_eq]
      omega
    have h2 : decide (200 ≤ s) = true := decide_eq_true hs
    rw [h0, h2]
    simp

theorem classification_agrees_with_spec_witness :
    ((some 200 : Option Nat) = none ∨ ∃ s, (some 200 : Option Nat) = some s ∧ 200 ≤ s) ∧
    (isDownJS (some 200) = downSpec (some 200) ∧ isUpJS (some 200) = upSpec (some 200)) :=
  ⟨Or.inr ⟨200, rfl, le_refl 200⟩,
    classification_agrees_with_spec (some 200) (Or.inr ⟨200, rfl, le_refl 200⟩)⟩

/-- C6 (counterexample): an informational status of 100 is classified up
by the code (truthy and below 400) while the stated rule puts up at
[200, 400) — the two classifications disagree there. -/
theorem informational_status_classified_up :
    isUpJS (some 100) = true ∧ upSpec (some 100) = false := by decide

/-- C7 (amended): the single catch around reading and parsing config.json
maps both a missing file and a malformed one to the built-in default
configuration — a malformed configuration is not fatal. -/
theorem config_missing_or_malformed_defaults (readResult : Option String)
    (parse : String → Option Config)
    (h : readResult = none ∨ ∃ s, readResult = some s ∧ parse s = none) :
    loadConfig readResult parse = defaultConfig := by
  rcases h with rfl | ⟨s, rfl, hp⟩
  · rfl
  · simp [loadConfig, hp]

theorem config_missing_or_malformed_defaults_witness :
    ((some "malformed json text" : Option String) = none ∨
      ∃ s, (some "malformed json text" : Option String) = some s ∧
        (fun (_ : String) => (none : Option Config)) s = none) ∧
    loadConfig (some "malformed json text") (fun _ => none) = defaultConfig :=
  ⟨Or.inr ⟨"malformed json text", rfl, rfl⟩,
    config_missing_or_malformed_defaults (some "malformed json text") (fun _ => none)
      (Or.inr ⟨"malformed json text", rfl, rfl⟩)⟩

/-- C7 (counterexample): a present but unparseable config.json (modelled
by a parse that throws on its text) makes the run fall back to the
built-in defaults, whose two services then drive a normal run — the run
is not fatal, contradicting the malformed-is-fatal half of the claim. -/
theorem malformed_config_uses_defaults :
    loadConfig (some "]]not json") (fun _ => none) = defaultConfig ∧
    defaultConfig.services.length = 2 ∧ defaultConfig.services ≠ [] :=
  ⟨rfl, by decide, by decide⟩

/-- C8: a missing history or incidents file, or one whose text does not
parse, leaves that store empty for the run — the failure is absorbed
locally and the pipeline proceeds. -/
theorem missing_or_corrupt_store_empty (α : Type) (readResult : Option String)
    (parse : String → Option (List α))
    (h : readResult = none ∨ ∃ s, readResult = some s ∧ parse s = none) :
    loadStore readResult parse = [] := by
  rcases h with rfl | ⟨s, rfl, hp⟩
  · rfl
  · simp [loadStore, hp]

theorem missing_or_corrupt_store_empty_witness :
    ((none : Option String) = none ∨
      ∃ s, (none : Option String) = some s ∧
        (fun (_ : String) => (none : Option (List HistoryEntry))) s = none) ∧
    loadStore (none : Option String)
      (fun (_ : String) => (none : Option (List HistoryEntry))) = [] :=
  ⟨Or.inl rfl,
    missing_or_corrupt_store_empty HistoryEntry none
      (fun _ => none) (Or.inl rfl)⟩
